import Mathlib

/-!
# Verification of the ADF Pipeline Debugger error-enrichment and verification core

A shallow embedding of the decision logic of the ADF Pipeline Debugger:

* `adf_debugger/utils.py`            — `truncate_string`
* `adf_debugger/knowledge_base.py`   — `KnowledgeBase.match_error`
* `adf_debugger/vector_knowledge_base.py` — `VectorKnowledgeBase.get_enrichment`
* `adf_debugger/error_analyzer.py`   — `_merge_kb_enrichments`, `_build_prompt`,
  `_merge_analysis`, `_fallback_analysis`, `analyze`
* `adf_debugger/fact_checker.py`     — `_fallback_verification`, `_score_to_level`

Modelling conventions:

* Python numbers in the scoring logic are modelled as rationals (`ℚ`).  Every
  score reachable in `_fallback_verification` is an exact multiple of `1/20`,
  at which all the comparisons and the 2-decimal rounding performed by the
  Python code agree with exact rational arithmetic.
* Python strings are modelled as `String`; slicing `s[:n]` is `String.take`
  (both count code points).
* A Python dict with a known key set is modelled as a structure; a key that
  the code may find absent is an `Option` field (`none` = key absent), and a
  key that is always present in the data actually flowing through the program
  is a plain field.  Truthiness tests on strings/lists/dicts are the
  corresponding emptiness tests.
* External collaborators (the `re` module, the ChromaDB search) enter as
  function parameters of the definitions that call them.
-/

/-! ## Data model -/

/-- One entry of the static semantic catalog `ADF_ERROR_KNOWLEDGE` in
`vector_knowledge_base.py`.  All 34 entries of the source literal carry the
keys below (keys read with `.get` and a default are modelled as plain fields;
an absent key corresponds to the default value). -/
structure KBEntry where
  id : String
  category : String
  severity : String
  title : String
  error_pattern : String
  description : String
  causes : List String
  solutions : List String
  prevention : List String
  estimated_fix_time : String
  documentation : List String
deriving DecidableEq

/-- One element of the list returned by `VectorKnowledgeBase.search`:
the dict `{"entry": ..., "similarity": ..., "distance": ...}`. -/
structure KBMatch where
  entry : KBEntry
  similarity : ℚ
  distance : ℚ
deriving DecidableEq

/-- An element of a `similar_errors` list.  `VectorKnowledgeBase.get_enrichment`
emits `{"title", "similarity"}` dicts; step 7 of `ErrorAnalyzer.analyze` emits
`{"title", "similarity", "category"}` dicts — the optional `category` field
covers both shapes. -/
structure SimilarError where
  title : String
  similarity : ℚ
  category : Option String := none
deriving DecidableEq

/-- Projection of a catalog entry stored under the `error_entry` key of an
enrichment, to the fields any consumer reads (`id` in `_merge_analysis`,
`title`/`description` in `_fallback_analysis`). -/
structure ErrorEntryView where
  id : String
  title : String
  description : String
deriving DecidableEq

/-- A runbook dict.  Every key is read with `.get` and a default, so every
field is optional. -/
structure Runbook where
  title : Option String := none
  steps : Option (List String) := none
  estimated_time : Option String := none
  prevention : Option (List String) := none
deriving DecidableEq

/-- An enrichment dict, as produced by `KnowledgeBase.get_enrichment`,
`VectorKnowledgeBase.get_enrichment`, or `_merge_kb_enrichments`.
`pattern_matched` is the truthiness of the `pattern_matched` key (absent and
`False` behave identically everywhere the key is read); every other key may be
absent.  `rest` carries any remaining key/value pairs, which the merge copies
verbatim. -/
structure Enrichment where
  pattern_matched : Bool := false
  error_entry : Option ErrorEntryView := none
  runbook : Option Runbook := none
  category : Option String := none
  severity : Option String := none
  known_causes : Option (List String) := none
  known_solutions : Option (List String) := none
  prevention : Option (List String) := none
  estimated_fix_time : Option String := none
  documentation_links : Option (List String) := none
  match_confidence : Option ℚ := none
  similar_errors : Option (List SimilarError) := none
  closest_match : Option String := none
  rest : List (String × String) := []
deriving DecidableEq

/-- One entry of the regex catalog (`knowledge/common_errors.json`), as read
by `KnowledgeBase.match_error`: the `pattern` key plus identifying payload. -/
structure CatalogError where
  id : String
  pattern : String
  title : String
  category : String
deriving DecidableEq

/-- A solution dict of the AI response schema / fallback report:
`{"title", "steps", "estimated_time", "likelihood"}`. -/
structure Solution where
  title : String
  steps : List String
  estimated_time : String
  likelihood : String
deriving DecidableEq

/-- A documentation link `{"title", "url"}`. -/
structure DocLink where
  title : String
  url : String
deriving DecidableEq

/-- The view of the report dict that `FactCheckingAgent._fallback_verification`
reads: the `root_cause`, `solutions` and `category` keys (absent keys behave
as the empty defaults under the truthiness/equality tests performed there). -/
structure Analysis where
  root_cause : String
  solutions : List Solution
  category : String
deriving DecidableEq

/-- The verification dict returned by the fact-checking agent (fallback path
shape; the primary path backfills the same keys). -/
structure Verification where
  confidence_score : ℚ
  confidence_level : String
  root_cause_accurate : Bool
  solutions_applicable : Bool
  severity_correct : Bool
  corrections : List String
  flagged_issues : List String
  verification_method : String
deriving DecidableEq

/-- One element of the `failed_activities` summary built by `_build_prompt`
(`activity_name`, `activity_type`, `error`, `duration_ms`). -/
structure ActivitySummary where
  activity_name : String
  activity_type : String
  error : String
  duration_ms : Option Int
deriving DecidableEq

/-- A failure record (`ADFClient.get_error_details` output), restricted to
the fields the analyzer reads.  String-valued keys that the code reads with
`.get` and a string default are plain fields; nullable timestamps and
durations are `Option` fields. -/
structure FailureRecord where
  pipeline_name : String
  run_id : String
  primary_error_message : String
  primary_error_code : String
  primary_failure_type : String
  failing_activity_name : String
  failing_activity_type : String
  parameters : List (String × String)
  invoked_by : List (String × String)
  run_start : Option String
  run_end : Option String
  duration_ms : Option Int
  total_activities : Nat
  failed_activities : List ActivitySummary
  succeeded_activities : List ActivitySummary
deriving DecidableEq

/-- The knowledge-base hint block `_build_prompt` adds to the context when
the merged enrichment matched: its `category`, `known_causes` and
`severity` values. -/
structure KBMatchHint where
  category : Option String
  known_causes : Option (List String)
  severity : Option String
deriving DecidableEq

/-- The structured context object `_build_prompt` serializes into the AI
prompt.  `run_start`/`run_end` pass through Python `str()`, modelled as the
stored string or `"None"` for a null value. -/
structure PromptContext where
  pipeline_name : String
  run_id : String
  primary_error_code : String
  primary_error_message : String
  primary_failure_type : String
  failing_activity_name : String
  failing_activity_type : String
  pipeline_parameters : List (String × String)
  invoked_by : List (String × String)
  run_start : String
  run_end : String
  duration_ms : Option Int
  total_activities : Nat
  failed_activities : List ActivitySummary
  succeeded_activities_count : Nat
  knowledge_base_match : Option KBMatchHint
deriving DecidableEq

/-- The parsed AI analysis JSON.  The AI may omit keys, so every field is
optional, matching the `.get(key, default)` reads in `_merge_analysis`. -/
structure AIAnalysis where
  plain_english_error : Option String := none
  root_cause : Option String := none
  category : Option String := none
  severity : Option String := none
  solutions : Option (List Solution) := none
  preventive_measures : Option (List String) := none
  related_documentation : Option (List DocLink) := none
  additional_checks : Option (List String) := none
  data_engineering_tips : Option String := none
deriving DecidableEq

/-- The final diagnostic report assembled by `_merge_analysis`, with the
fields steps 6 and 7 of `analyze` attach afterwards (`fact_check` holds the
score/level pair any later reader would consume). -/
structure Report where
  pipeline_name : String
  run_id : String
  failing_activity : String
  failing_activity_type : String
  plain_english_error : String
  raw_error_message : String
  error_code : String
  category : String
  severity : String
  root_cause : String
  solutions : List Solution
  known_solutions : List String
  runbook : Option Runbook
  preventive_measures : List String
  additional_checks : List String
  data_engineering_tips : String
  estimated_fix_time : String
  documentation_links : List DocLink
  run_start : Option String
  run_end : Option String
  duration_ms : Option Int
  parameters : List (String × String)
  invoked_by : List (String × String)
  total_activities : Nat
  failed_activities : List ActivitySummary
  succeeded_activities_count : Nat
  kb_pattern_matched : Bool
  kb_error_id : Option String
  fact_check : Option (ℚ × String) := none
  confidence_score : Option ℚ := none
  confidence_level : Option String := none
  similar_errors : Option (List SimilarError) := none
deriving DecidableEq

/-- Outcome of step 6 of `analyze`: the fact-checker is absent
(`self.fact_checker is None`), its `verify` call raised, or it returned a
verification dict. -/
inductive FactCheckOutcome where
  | absent
  | failed
  | ok (v : Verification)
deriving DecidableEq

/-! ## `fact_checker.py` -/

/-- `FactCheckingAgent._score_to_level`. -/
def score_to_level (score : ℚ) : String :=
  if score ≥ 4/5 then "high"
  else if score ≥ 3/5 then "medium"
  else "low"

/-- Python `round(q, 2)`.  Mathlib's `round` rounds half away from the floor
while Python rounds half to even, but every score this development applies it
to is an exact multiple of `1/20`, where every rounding mode is the
identity (see `roundTo2_div20`). -/
def roundTo2 (q : ℚ) : ℚ := ((round (q * 100) : ℤ) : ℚ) / 100

/-- The final value of the local variable `confidence` in
`FactCheckingAgent._fallback_verification`: a 0.5 base, replaced by a
similarity-keyed step when knowledge-base matches exist, then two `+0.1`
boosts each capped at 0.95. -/
def fallback_confidence (analysis : Analysis) (kb_matches : List KBMatch) : ℚ :=
  let confidence : ℚ := 1/2
  let confidence : ℚ :=
    match kb_matches with
    | [] => confidence
    | m :: _ =>
      let best_sim := m.similarity
      if best_sim > 3/5 then 17/20
      else if best_sim > 2/5 then 7/10
      else if best_sim > 3/10 then 3/5
      else confidence
  let confidence : ℚ :=
    if analysis.root_cause ≠ "" ∧ analysis.solutions ≠ [] then
      min (confidence + 1/10) (19/20)
    else confidence
  let confidence : ℚ :=
    match kb_matches with
    | [] => confidence
    | m :: _ =>
      if analysis.category ≠ "" ∧ m.entry.category = analysis.category then
        min (confidence + 1/10) (19/20)
      else confidence
  confidence

/-- `FactCheckingAgent._fallback_verification`. -/
def fallback_verification (analysis : Analysis) (kb_matches : List KBMatch) : Verification :=
  let confidence := fallback_confidence analysis kb_matches
  { confidence_score := roundTo2 confidence
    confidence_level := score_to_level confidence
    root_cause_accurate := decide (confidence > 3/5)
    solutions_applicable := decide (confidence > 1/2)
    severity_correct := true
    corrections := []
    flagged_issues :=
      if confidence > 1/2 then [] else ["Low confidence — manual review recommended"]
    verification_method := "knowledge_base_fallback" }

/-- The fallback confidence formula exactly as claim C2 words it: the `+0.1`
category boost fires whenever the best match's category equals the report's
category — with no requirement that the report's category be non-empty. -/
def claimed_fallback_confidence (analysis : Analysis) (kb_matches : List KBMatch) : ℚ :=
  let base : ℚ :=
    match kb_matches with
    | [] => 1/2
    | m :: _ =>
      if m.similarity > 3/5 then 17/20
      else if m.similarity > 2/5 then 7/10
      else if m.similarity > 3/10 then 3/5
      else 1/2
  let withContent : ℚ :=
    if analysis.root_cause ≠ "" ∧ analysis.solutions ≠ [] then
      min (base + 1/10) (19/20)
    else base
  match kb_matches with
  | [] => withContent
  | m :: _ =>
    if m.entry.category = analysis.category then
      min (withContent + 1/10) (19/20)
    else withContent

/-- Claim C2's formula amended as the code forces: the category boost
additionally requires the report's category to be non-empty. -/
def amended_fallback_confidence (analysis : Analysis) (kb_matches : List KBMatch) : ℚ :=
  let base : ℚ :=
    match kb_matches with
    | [] => 1/2
    | m :: _ =>
      if m.similarity > 3/5 then 17/20
      else if m.similarity > 2/5 then 7/10
      else if m.similarity > 3/10 then 3/5
      else 1/2
  let withContent : ℚ :=
    if analysis.root_cause ≠ "" ∧ analysis.solutions ≠ [] then
      min (base + 1/10) (19/20)
    else base
  match kb_matches with
  | [] => withContent
  | m :: _ =>
    if analysis.category ≠ "" ∧ m.entry.category = analysis.category then
      min (withContent + 1/10) (19/20)
    else withContent

/-! ## `knowledge_base.py` -/

/-- The scan loop of `KnowledgeBase.match_error`.  The external call
`re.findall(pattern, message, re.IGNORECASE)` enters as the parameter
`re_findall_count`: `none` models the `re.error` raised by an invalid
pattern (the `except re.error: continue` arm), `some n` a match list of
length `n`.  An entry updates the running best only when its match list is
non-empty and its score strictly exceeds the best score. -/
def match_error_loop (re_findall_count : String → String → Option Nat) (error_message : String) :
    List CatalogError → Option CatalogError → Nat → Option CatalogError
  | [], best_match, _ => best_match
  | error :: rest, best_match, best_score =>
    match re_findall_count error.pattern error_message with
    | none => match_error_loop re_findall_count error_message rest best_match best_score
    | some n =>
      if n ≠ 0 then
        if n > best_score then
          match_error_loop re_findall_count error_message rest (some error) n
        else
          match_error_loop re_findall_count error_message rest best_match best_score
      else
        match_error_loop re_findall_count error_message rest best_match best_score

/-- `KnowledgeBase.match_error`: `None` on an empty (falsy) message,
otherwise the scan starting from `best_match = None`, `best_score = 0`. -/
def match_error (re_findall_count : String → String → Option Nat)
    (errors : List CatalogError) (error_message : String) : Option CatalogError :=
  if error_message = "" then none
  else match_error_loop re_findall_count error_message errors none 0

/-- The effective score of a catalog entry: its match count, with an invalid
pattern (which the scan skips) counting as zero. -/
def match_count (re_findall_count : String → String → Option Nat)
    (error_message : String) (e : CatalogError) : Nat :=
  (re_findall_count e.pattern error_message).getD 0

/-! ## `vector_knowledge_base.py` -/

/-- `VectorKnowledgeBase.get_enrichment`.  The ChromaDB-backed
`VectorKnowledgeBase.search` enters as the parameter `search` (message and
`n_results` in, ranked matches out).  An empty (falsy) message or an empty
match list yields the bare unmatched dict; a best similarity below 0.3
yields the unmatched dict carrying the closest title; otherwise the full
enrichment is built from the best entry, with the runbook synthesized from
its solutions and up to two runner-up matches listed. -/
def vector_get_enrichment (search : String → Nat → List KBMatch)
    (error_message : String) : Enrichment :=
  if error_message = "" then { pattern_matched := false }
  else
    match search error_message 3 with
    | [] => { pattern_matched := false }
    | best :: rest =>
      if best.similarity < 3/10 then
        { pattern_matched := false, closest_match := some best.entry.title }
      else
        { pattern_matched := true
          match_confidence := some best.similarity
          error_entry := some { id := best.entry.id, title := best.entry.title,
                                description := best.entry.description }
          category := some best.entry.category
          severity := some best.entry.severity
          known_causes := some best.entry.causes
          known_solutions := some best.entry.solutions
          prevention := some best.entry.prevention
          estimated_fix_time := some best.entry.estimated_fix_time
          documentation_links := some best.entry.documentation
          runbook := some { title := some ("Troubleshoot: " ++ best.entry.title)
                            steps := some (best.entry.solutions.take 8)
                            estimated_time := some best.entry.estimated_fix_time
                            prevention := some best.entry.prevention }
          similar_errors := some ((rest.take 2).map fun m =>
            { title := m.entry.title, similarity := m.similarity }) }

/-! ## `utils.py` and `error_analyzer.py` -/

/-- The `for sol in vector_solutions` loop of `_merge_kb_enrichments`:
`existing_solutions` is the set frozen before the loop; each solution not in
it is appended via `merged.setdefault("known_solutions", []).append(sol)`
(`acc = none` models a still-absent `known_solutions` key). -/
def merge_solutions_loop (acc : Option (List String)) (existing_solutions : List String) :
    List String → Option (List String)
  | [] => acc
  | sol :: rest =>
    if existing_solutions.contains sol then
      merge_solutions_loop acc existing_solutions rest
    else
      merge_solutions_loop (some (acc.getD [] ++ [sol])) existing_solutions rest

/-- `ErrorAnalyzer._merge_kb_enrichments` (the returned dict).  In the
neither-matched branch the code returns `regex_kb or {}`, which is
value-equal to `regex_kb` (it differs from it only when `regex_kb` is the
empty dict, in which case `{}` equals it). -/
def merge_kb_enrichments (regex_kb vector_kb : Enrichment) : Enrichment :=
  if !vector_kb.pattern_matched && !regex_kb.pattern_matched then regex_kb
  else if vector_kb.pattern_matched && !regex_kb.pattern_matched then vector_kb
  else if regex_kb.pattern_matched && !vector_kb.pattern_matched then regex_kb
  else
    let vector_solutions := vector_kb.known_solutions.getD []
    let existing_solutions := regex_kb.known_solutions.getD []
    { regex_kb with
      known_solutions :=
        merge_solutions_loop regex_kb.known_solutions existing_solutions vector_solutions
      prevention := some (vector_kb.prevention.getD (regex_kb.prevention.getD []))
      similar_errors := some (vector_kb.similar_errors.getD [])
      match_confidence := some (vector_kb.match_confidence.getD 0) }

/-- The state of the `regex_kb` argument after `_merge_kb_enrichments`
returns.  `merged = dict(regex_kb)` is a shallow copy, so when `regex_kb`
carries a `known_solutions` key, `merged.setdefault("known_solutions", [])`
returns the list object shared with `regex_kb` and the loop's `append`
mutates it in place; every other write targets only the copy, and
`vector_kb` is never written. -/
def merge_post_regex (regex_kb vector_kb : Enrichment) : Enrichment :=
  if !vector_kb.pattern_matched && !regex_kb.pattern_matched then regex_kb
  else if vector_kb.pattern_matched && !regex_kb.pattern_matched then regex_kb
  else if regex_kb.pattern_matched && !vector_kb.pattern_matched then regex_kb
  else
    match regex_kb.known_solutions with
    | none => regex_kb
    | some _ =>
      { regex_kb with
        known_solutions :=
          merge_solutions_loop regex_kb.known_solutions (regex_kb.known_solutions.getD [])
            (vector_kb.known_solutions.getD []) }

/-- `utils.truncate_string`: empty/falsy strings pass through, strings within
the cap are returned unchanged, longer strings are cut to the first
`max_length` characters with an appended `"..."` ellipsis. -/
def truncate_string (s : String) (max_length : Nat := 500) : String :=
  if s = "" then ""
  else if s.length ≤ max_length then s
  else s.take max_length ++ "..."

/-- The context object built by `ErrorAnalyzer._build_prompt`: the failure
record's salient fields with the primary error message passed through
`truncate_string(..., 2000)`, plus the knowledge-base hints when the merged
enrichment matched. -/
def build_prompt_context (error_details : FailureRecord) (kb_enrichment : Enrichment) :
    PromptContext :=
  { pipeline_name := error_details.pipeline_name
    run_id := error_details.run_id
    primary_error_code := error_details.primary_error_code
    primary_error_message := truncate_string error_details.primary_error_message 2000
    primary_failure_type := error_details.primary_failure_type
    failing_activity_name := error_details.failing_activity_name
    failing_activity_type := error_details.failing_activity_type
    pipeline_parameters := error_details.parameters
    invoked_by := error_details.invoked_by
    run_start := (error_details.run_start).getD "None"
    run_end := (error_details.run_end).getD "None"
    duration_ms := error_details.duration_ms
    total_activities := error_details.total_activities
    failed_activities := (error_details.failed_activities).map fun act =>
      { activity_name := act.activity_name, activity_type := act.activity_type,
        error := act.error, duration_ms := act.duration_ms }
    succeeded_activities_count := (error_details.succeeded_activities).length
    knowledge_base_match :=
      if kb_enrichment.pattern_matched then
        some { category := kb_enrichment.category,
               known_causes := kb_enrichment.known_causes,
               severity := kb_enrichment.severity }
      else none }

/-- `ErrorAnalyzer._fallback_analysis`: the enrichment-only report used when
the AI call raises or its response fails to parse.  Python wraps the
pipeline and activity names in single quotes (written `\x27` here). -/
def fallback_analysis (error_details : FailureRecord) (kb_enrichment : Enrichment) :
    AIAnalysis :=
  let kb_matched := kb_enrichment.pattern_matched
  let error_entry := kb_enrichment.error_entry.getD { id := "", title := "", description := "" }
  let pipeline := error_details.pipeline_name
  let activity := error_details.failing_activity_name
  let error_msg := error_details.primary_error_message
  let core : String × String × String × String × List Solution × List String :=
    if kb_matched then
      let plain_error :=
        "The pipeline \x27" ++ pipeline ++ "\x27 failed at activity \x27" ++ activity
          ++ "\x27. This is a known error: " ++ error_entry.title ++ ". "
          ++ error_entry.description
      let joined := String.intercalate ". " ((kb_enrichment.known_causes.getD []).take 3)
      let root_cause := if joined = "" then "See known causes above" else joined
      let category := kb_enrichment.category.getD "unknown"
      let severity := kb_enrichment.severity.getD "medium"
      let solutions := ((kb_enrichment.known_solutions.getD []).take 5).enum.map fun sol =>
        { title := sol.2, steps := [],
          estimated_time := kb_enrichment.estimated_fix_time.getD "15-30 minutes",
          likelihood := if sol.1 = 0 then "high" else "medium" : Solution }
      let solutions :=
        match kb_enrichment.runbook with
        | none => solutions
        | some runbook =>
          let runbook_steps := runbook.steps.getD []
          if runbook_steps ≠ [] then
            { title := "Follow Runbook: " ++ runbook.title.getD "Troubleshooting Guide",
              steps := runbook_steps.take 8,
              estimated_time := runbook.estimated_time.getD "15-30 minutes",
              likelihood := "high" : Solution } :: solutions
          else solutions
      let prevention :=
        match kb_enrichment.runbook with
        | some runbook => runbook.prevention.getD []
        | none => []
      (plain_error, root_cause, category, severity, solutions, prevention)
    else
      let plain_error :=
        "The pipeline \x27" ++ pipeline ++ "\x27 failed at activity \x27" ++ activity
          ++ "\x27. Error: " ++ truncate_string error_msg 300
      let root_cause :=
        "Could not automatically determine root cause. Please review the error message."
      let solutions : List Solution :=
        [{ title := "Manual Investigation",
           steps := ["Open Azure Data Factory Monitor",
                     "Find the pipeline run with ID: " ++ error_details.run_id,
                     "Review the failing activity error details",
                     "Check the activity input/output for data issues",
                     "Review linked service connections"],
           estimated_time := "15-30 minutes",
           likelihood := "medium" }]
      (plain_error, root_cause, "unknown", "medium", solutions, [])
  { plain_english_error := some core.1
    root_cause := some core.2.1
    category := some core.2.2.1
    severity := some core.2.2.2.1
    solutions := some core.2.2.2.2.1
    preventive_measures := some
      (if core.2.2.2.2.2 ≠ [] then core.2.2.2.2.2
       else ["Add monitoring alerts for pipeline failures",
             "Implement retry policies on activities",
             "Add data validation activities"])
    related_documentation := some
      ((kb_enrichment.documentation_links.getD []).map fun d => { title := d, url := d })
    additional_checks := some []
    data_engineering_tips :=
      some "Consider adding logging and validation steps to your pipeline." }

/-- `ErrorAnalyzer._merge_analysis`: AI fields take priority with
enrichment-derived defaults; enrichment solutions, runbook and documentation
are carried alongside. -/
def merge_analysis (error_details : FailureRecord) (kb_enrichment : Enrichment)
    (ai_analysis : AIAnalysis) : Report :=
  { pipeline_name := error_details.pipeline_name
    run_id := error_details.run_id
    failing_activity := error_details.failing_activity_name
    failing_activity_type := error_details.failing_activity_type
    plain_english_error := ai_analysis.plain_english_error.getD
      ("Pipeline \x27" ++ error_details.pipeline_name ++ "\x27 failed at activity \x27"
        ++ error_details.failing_activity_name ++ "\x27.")
    raw_error_message := error_details.primary_error_message
    error_code := error_details.primary_error_code
    category := ai_analysis.category.getD (kb_enrichment.category.getD "unknown")
    severity := ai_analysis.severity.getD (kb_enrichment.severity.getD "medium")
    root_cause := ai_analysis.root_cause.getD "Unable to determine root cause"
    solutions := ai_analysis.solutions.getD []
    known_solutions := kb_enrichment.known_solutions.getD []
    runbook := kb_enrichment.runbook
    preventive_measures := ai_analysis.preventive_measures.getD []
    additional_checks := ai_analysis.additional_checks.getD []
    data_engineering_tips := ai_analysis.data_engineering_tips.getD ""
    estimated_fix_time := kb_enrichment.estimated_fix_time.getD "unknown"
    documentation_links := ai_analysis.related_documentation.getD []
      ++ (kb_enrichment.documentation_links.getD []).map
          fun url => { title := "Microsoft Docs", url := url }
    run_start := error_details.run_start
    run_end := error_details.run_end
    duration_ms := error_details.duration_ms
    parameters := error_details.parameters
    invoked_by := error_details.invoked_by
    total_activities := error_details.total_activities
    failed_activities := error_details.failed_activities
    succeeded_activities_count := (error_details.succeeded_activities).length
    kb_pattern_matched := kb_enrichment.pattern_matched
    kb_error_id := kb_enrichment.error_entry.map fun e => e.id }

/-- `ErrorAnalyzer.analyze`, shallowly embedded over its collaborators: the
two enrichments (computed by the knowledge bases from the primary error
message), the vector matches of step 2, the parsed AI response of step 4
(`none` models the call raising or the response failing to parse as JSON,
in which case `_fallback_analysis` runs), and the fact-check outcome of
step 6.  Step 7 attaches up to three similar errors. -/
def analyze (regex_enrichment vector_enrichment : Enrichment)
    (vector_matches : List KBMatch) (ai_response : Option AIAnalysis)
    (fact_check : FactCheckOutcome) (error_details : FailureRecord) : Report :=
  let merged_kb := merge_kb_enrichments regex_enrichment vector_enrichment
  let ai_analysis :=
    match ai_response with
    | some a => a
    | none => fallback_analysis error_details merged_kb
  let result := merge_analysis error_details merged_kb ai_analysis
  let result :=
    match fact_check with
    | .ok v => { result with fact_check := some (v.confidence_score, v.confidence_level),
                             confidence_score := some v.confidence_score,
                             confidence_level := some v.confidence_level }
    | .failed => { result with fact_check := some (3/5, "medium"),
                               confidence_score := some (3/5),
                               confidence_level := some "medium" }
    | .absent => { result with confidence_score := some (1/2),
                               confidence_level := some "medium" }
  if vector_matches ≠ [] then
    { result with similar_errors := some ((vector_matches.take 3).map fun m =>
        { title := m.entry.title, similarity := m.similarity,
          category := some m.entry.category }) }
  else result

/-! ## Concrete inputs for witnesses and counterexamples -/

/-- A report view with empty root cause, no solutions and an empty category. -/
def analysisC2 : Analysis := { root_cause := "", solutions := [], category := "" }

/-- A catalog entry whose `category` is the empty string. -/
def entryC2 : KBEntry :=
  { id := "e", category := "", severity := "high", title := "t", error_pattern := "p",
    description := "d", causes := [], solutions := [], prevention := [],
    estimated_fix_time := "unknown", documentation := [] }

/-- A single knowledge-base match of similarity 0.5 on `entryC2`. -/
def kbMatchesC2 : List KBMatch := [{ entry := entryC2, similarity := 1/2, distance := 1/2 }]

/-- A concrete well-formed catalog entry shared by several witnesses. -/
def entryW : KBEntry :=
  { id := "conn_timeout", category := "connectivity", severity := "high",
    title := "Connection Timeout Error", error_pattern := "timeout",
    description := "A data source connection attempt timed out.",
    causes := ["Target server is overloaded"],
    solutions := ["Increase timeout settings in the linked service configuration"],
    prevention := ["Set appropriate timeout values"],
    estimated_fix_time := "15-45 minutes",
    documentation := ["https://learn.microsoft.com/troubleshoot"] }

/-- A concrete report view with content, shared by several witnesses. -/
def analysisW : Analysis :=
  { root_cause := "Server overloaded",
    solutions := [{ title := "Increase timeout", steps := [], estimated_time := "15m",
                    likelihood := "high" }],
    category := "connectivity" }

/-- A regex enrichment that matched, carrying one known solution. -/
def enrichMatchedR : Enrichment :=
  { pattern_matched := true, category := some "connectivity",
    known_solutions := some ["Check firewall rules"] }

/-- A semantic enrichment that matched, carrying one new known solution. -/
def enrichMatchedV : Enrichment :=
  { pattern_matched := true, known_solutions := some ["Increase timeout settings"],
    prevention := some ["Set appropriate timeout values"], similar_errors := some [],
    match_confidence := some (4/5) }

/-- An enrichment with no pattern match. -/
def enrichNone : Enrichment := { pattern_matched := false }

/-- A concrete regex-match oracle: the pattern `"("` is an invalid regex,
`"timeout"` matches the witness message twice, `"connection"` once. -/
def rcW : String → String → Option Nat := fun p m =>
  if p = "(" then none
  else if p = "timeout" ∧ m = "timeout connection timeout" then some 2
  else if p = "connection" ∧ m = "timeout connection timeout" then some 1
  else some 0

/-- A catalog entry with an invalid regex pattern. -/
def catBad : CatalogError :=
  { id := "bad", pattern := "(", title := "Broken entry", category := "unknown" }

/-- A catalog entry matching the witness message once. -/
def catConn : CatalogError :=
  { id := "conn", pattern := "connection", title := "Connection failure",
    category := "connectivity" }

/-- A catalog entry matching the witness message twice. -/
def catTimeout : CatalogError :=
  { id := "to", pattern := "timeout", title := "Timeout", category := "timeout" }

/-- The witness catalog: an invalid entry, then a single-match entry, then a
double-match entry. -/
def catW : List CatalogError := [catBad, catConn, catTimeout]

/-- A search oracle returning a single match of similarity exactly 0.30. -/
def searchHi : String → Nat → List KBMatch :=
  fun _ _ => [{ entry := entryW, similarity := 3/10, distance := 7/10 }]

/-- A search oracle returning a single match of similarity 0.29. -/
def searchLo : String → Nat → List KBMatch :=
  fun _ _ => [{ entry := entryW, similarity := 29/100, distance := 71/100 }]

/-- A 2001-character error message. -/
def longMsg : String := String.mk (List.replicate 2001 'a')

/-- A failure record whose primary error message has 2001 characters. -/
def frLong : FailureRecord :=
  { pipeline_name := "DailySales", run_id := "run-1", primary_error_message := longMsg,
    primary_error_code := "2200", primary_failure_type := "UserError",
    failing_activity_name := "CopyData", failing_activity_type := "Copy",
    parameters := [], invoked_by := [], run_start := none, run_end := none,
    duration_ms := none, total_activities := 1, failed_activities := [],
    succeeded_activities := [] }

/-- A failure record with a short primary error message. -/
def frShort : FailureRecord :=
  { frLong with primary_error_message := "boom" }

/-! ## Helper lemmas -/

/-- Every reachable fallback confidence is an exact multiple of `1/20`. -/
lemma fallback_confidence_eq_div20 (a : Analysis) (ms : List KBMatch) :
    ∃ k : ℕ, fallback_confidence a ms = (k : ℚ) / 20 := by
  rcases ms with _ | ⟨m, rest⟩ <;> simp only [fallback_confidence] <;> split_ifs
  all_goals
    (first
      | (refine ⟨10, ?_⟩; norm_num [min_def]; done)
      | (refine ⟨12, ?_⟩; norm_num [min_def]; done)
      | (refine ⟨14, ?_⟩; norm_num [min_def]; done)
      | (refine ⟨16, ?_⟩; norm_num [min_def]; done)
      | (refine ⟨17, ?_⟩; norm_num [min_def]; done)
      | (refine ⟨18, ?_⟩; norm_num [min_def]; done)
      | (refine ⟨19, ?_⟩; norm_num [min_def]; done))

/-- Two-decimal rounding is the identity on multiples of `1/20` (so on every
reachable fallback confidence all Python rounding modes agree with the
identity). -/
lemma roundTo2_div20 (k : ℕ) : roundTo2 ((k : ℚ) / 20) = (k : ℚ) / 20 := by
  rw [roundTo2]
  rw [show ((k : ℚ) / 20 * 100) = ((5 * (k : ℤ) : ℤ) : ℚ) by push_cast; ring]
  rw [round_intCast]
  push_cast
  ring

/-- The stored `confidence_score` equals the unrounded fallback confidence. -/
lemma fallback_confidence_score_eq (a : Analysis) (ms : List KBMatch) :
    (fallback_verification a ms).confidence_score = fallback_confidence a ms := by
  obtain ⟨k, hk⟩ := fallback_confidence_eq_div20 a ms
  show roundTo2 (fallback_confidence a ms) = fallback_confidence a ms
  rw [hk, roundTo2_div20]

/-- The fallback confidence always lies in `[1/2, 19/20]`. -/
lemma fallback_confidence_bounds (a : Analysis) (ms : List KBMatch) :
    1/2 ≤ fallback_confidence a ms ∧ fallback_confidence a ms ≤ 19/20 := by
  rcases ms with _ | ⟨m, rest⟩ <;>
    simp only [fallback_confidence] <;>
    split_ifs <;>
    constructor <;> norm_num [min_def]

/-- The append loop equals regex-order-preserving concatenation with the
semantic solutions filtered by membership in the frozen set. -/
lemma merge_solutions_loop_eq (vs : List String) :
    ∀ (acc existing : List String),
      merge_solutions_loop (some acc) existing vs
        = some (acc ++ vs.filter (fun s => !existing.contains s)) := by
  induction vs with
  | nil => intro acc existing; simp [merge_solutions_loop]
  | cons sol rest ih =>
    intro acc existing
    by_cases h : existing.contains sol = true
    · have hmem : sol ∈ existing := by simpa using h
      simp [merge_solutions_loop, h, hmem, ih, List.filter_cons]
    · have hmem : sol ∉ existing := by simpa using h
      simp [merge_solutions_loop, h, hmem, ih, List.filter_cons, List.append_assoc]

/-- Filtering a list against the frozen set extended by its own filtered
elements leaves nothing: every element is either already in `rs` or was
appended. -/
lemma filter_not_contains_append_filter (vs rs : List String) :
    vs.filter (fun s => !((rs ++ vs.filter (fun s => !rs.contains s)).contains s)) = [] := by
  rw [List.filter_eq_nil_iff]
  intro x hx
  by_cases hxr : x ∈ rs
  · simp [hxr]
  · simp [List.mem_append, List.mem_filter, hxr, hx]

/-- The scan returns its accumulator exactly when no remaining entry beats
the accumulated score. -/
lemma match_error_loop_eq_none (rc : String → String → Option Nat) (msg : String)
    (l : List CatalogError) : ∀ (best : Option CatalogError) (bs : Nat),
    (match_error_loop rc msg l best bs = none ↔
      best = none ∧ ∀ x ∈ l, match_count rc msg x ≤ bs) := by
  induction l with
  | nil => intro best bs; simp [match_error_loop]
  | cons e rest ih =>
    intro best bs
    match he : rc e.pattern msg with
    | none =>
      simp only [match_error_loop, he, ih, List.mem_cons]
      constructor
      · rintro ⟨hb, hall⟩
        refine ⟨hb, ?_⟩
        rintro x (hx | hx)
        · subst hx; simp [match_count, he]
        · exact hall x hx
      · rintro ⟨hb, hall⟩
        exact ⟨hb, fun x hx => hall x (Or.inr hx)⟩
    | some n =>
      by_cases hn : n ≠ 0
      · by_cases hgt : n > bs
        · simp only [match_error_loop, he, if_pos hn, if_pos hgt, ih, List.mem_cons]
          constructor
          · rintro ⟨hb, _⟩
            exact absurd hb (by simp)
          · rintro ⟨hb, hall⟩
            have := hall e (Or.inl rfl)
            simp only [match_count, he, Option.getD_some] at this
            omega
        · simp only [match_error_loop, he, if_pos hn, if_neg hgt, ih, List.mem_cons]
          constructor
          · rintro ⟨hb, hall⟩
            refine ⟨hb, ?_⟩
            rintro x (hx | hx)
            · subst hx; simp only [match_count, he, Option.getD_some]; omega
            · exact hall x hx
          · rintro ⟨hb, hall⟩
            exact ⟨hb, fun x hx => hall x (Or.inr hx)⟩
      · simp only [match_error_loop, he, if_neg hn, ih, List.mem_cons]
        push_neg at hn
        constructor
        · rintro ⟨hb, hall⟩
          refine ⟨hb, ?_⟩
          rintro x (hx | hx)
          · subst hx; simp [match_count, he, hn]
          · exact hall x hx
        · rintro ⟨hb, hall⟩
          exact ⟨hb, fun x hx => hall x (Or.inr hx)⟩

/-- If the scan returns `some e` then either `e` was the accumulator and no
remaining entry beat the score, or `e` occurs in the list with a score
beating the accumulated one, every entry before it scoring at most the
initial score or strictly below `e`, and every entry after it scoring at
most `e`. -/
lemma match_error_loop_some (rc : String → String → Option Nat) (msg : String)
    (l : List CatalogError) : ∀ (best : Option CatalogError) (bs : Nat) (e : CatalogError),
    match_error_loop rc msg l best bs = some e →
    (best = some e ∧ ∀ x ∈ l, match_count rc msg x ≤ bs)
    ∨ (∃ l₁ l₂, l = l₁ ++ e :: l₂ ∧ bs < match_count rc msg e
        ∧ (∀ x ∈ l₁, match_count rc msg x ≤ bs ∨ match_count rc msg x < match_count rc msg e)
        ∧ (∀ x ∈ l₂, match_count rc msg x ≤ match_count rc msg e)) := by
  induction l with
  | nil =>
    intro best bs e h
    left
    exact ⟨h, by simp⟩
  | cons x rest ih =>
    intro best bs e h
    match he : rc x.pattern msg with
    | none =>
      simp only [match_error_loop, he] at h
      rcases ih best bs e h with ⟨hb, hall⟩ | ⟨l₁, l₂, heq, hlt, h₁, h₂⟩
      · left
        refine ⟨hb, ?_⟩
        intro y hy
        rcases List.mem_cons.mp hy with hy | hy
        · subst hy; simp [match_count, he]
        · exact hall y hy
      · right
        refine ⟨x :: l₁, l₂, by rw [heq, List.cons_append], hlt, ?_, h₂⟩
        intro y hy
        rcases List.mem_cons.mp hy with hy | hy
        · subst hy; left; simp [match_count, he]
        · exact h₁ y hy
    | some n =>
      simp only [match_error_loop, he] at h
      by_cases hn : n ≠ 0
      · rw [if_pos hn] at h
        by_cases hgt : n > bs
        · rw [if_pos hgt] at h
          rcases ih (some x) n e h with ⟨hb, hall⟩ | ⟨l₁, l₂, heq, hlt, h₁, h₂⟩
          · obtain rfl : x = e := by simpa using hb
            right
            refine ⟨[], rest, by simp, ?_, by simp, ?_⟩
            · simp only [match_count, he, Option.getD_some]
              omega
            · intro y hy
              simpa [match_count, he] using hall y hy
          · right
            have hne : n < match_count rc msg e := by simpa [match_count, he] using hlt
            refine ⟨x :: l₁, l₂, by rw [heq, List.cons_append], by omega, ?_, h₂⟩
            intro y hy
            rcases List.mem_cons.mp hy with hy | hy
            · subst hy
              right
              simp only [match_count, he, Option.getD_some]
              exact hne
            · rcases h₁ y hy with hy' | hy'
              · right; omega
              · right; exact hy'
        · rw [if_neg hgt] at h
          rcases ih best bs e h with ⟨hb, hall⟩ | ⟨l₁, l₂, heq, hlt, h₁, h₂⟩
          · left
            refine ⟨hb, ?_⟩
            intro y hy
            rcases List.mem_cons.mp hy with hy | hy
            · subst hy; simp only [match_count, he, Option.getD_some]; omega
            · exact hall y hy
          · right
            refine ⟨x :: l₁, l₂, by rw [heq, List.cons_append], hlt, ?_, h₂⟩
            intro y hy
            rcases List.mem_cons.mp hy with hy | hy
            · subst hy; left; simp only [match_count, he, Option.getD_some]; omega
            · exact h₁ y hy
      · push_neg at hn
        rw [if_neg (by omega)] at h
        rcases ih best bs e h with ⟨hb, hall⟩ | ⟨l₁, l₂, heq, hlt, h₁, h₂⟩
        · left
          refine ⟨hb, ?_⟩
          intro y hy
          rcases List.mem_cons.mp hy with hy | hy
          · subst hy; simp [match_count, he, hn]
          · exact hall y hy
        · right
          refine ⟨x :: l₁, l₂, by rw [heq, List.cons_append], hlt, ?_, h₂⟩
          intro y hy
          rcases List.mem_cons.mp hy with hy | hy
          · subst hy; left; simp [match_count, he, hn]
          · exact h₁ y hy

/-- Skipping invalid-pattern entries is the same as scanning the catalog with
those entries removed. -/
lemma match_error_loop_filter (rc : String → String → Option Nat) (msg : String)
    (l : List CatalogError) : ∀ (best : Option CatalogError) (bs : Nat),
    match_error_loop rc msg l best bs
      = match_error_loop rc msg (l.filter (fun e => (rc e.pattern msg).isSome)) best bs := by
  induction l with
  | nil => intro best bs; rfl
  | cons x rest ih =>
    intro best bs
    match he : rc x.pattern msg with
    | none =>
      have hp : ((fun e => (rc e.pattern msg).isSome) x) = false := by simp [he]
      rw [List.filter_cons]
      simp only [hp, Bool.false_eq_true, if_false]
      simp only [match_error_loop, he]
      exact ih best bs
    | some n =>
      have hp : ((fun e => (rc e.pattern msg).isSome) x) = true := by simp [he]
      rw [List.filter_cons]
      simp only [hp, if_true]
      simp only [match_error_loop, he]
      split_ifs with h1 h2
      · exact ih (some x) n
      · exact ih best bs
      · exact ih best bs

/-- The message field of the prompt context is the truncated primary error
message. -/
lemma build_prompt_context_message (fr : FailureRecord) (kb : Enrichment) :
    (build_prompt_context fr kb).primary_error_message
      = truncate_string fr.primary_error_message 2000 := rfl

/-- A string of length zero is the empty string. -/
lemma string_eq_empty_of_length (s : String) (h : s.length = 0) : s = "" := by
  cases s with
  | mk data =>
    rw [String.length_mk, List.length_eq_zero] at h
    rw [h]

/-- An append whose left part is non-empty is non-empty. -/
lemma string_append_ne_empty_left (a b : String) (h : a ≠ "") : a ++ b ≠ "" := by
  intro hc
  have hlen := congrArg String.length hc
  rw [String.length_append] at hlen
  simp only [show ("" : String).length = 0 from rfl] at hlen
  exact h (string_eq_empty_of_length a (by omega))

/-- Steps 6 and 7 of `analyze` (fact-check attachment, similar errors) do not
touch the explanation, classification or solution fields: on the AI-failure
path they equal those of the fallback-based merged report. -/
lemma analyze_ai_failed_core_fields (r v : Enrichment) (vm : List KBMatch)
    (fc : FactCheckOutcome) (fr : FailureRecord) :
    (analyze r v vm none fc fr).plain_english_error
        = (merge_analysis fr (merge_kb_enrichments r v)
            (fallback_analysis fr (merge_kb_enrichments r v))).plain_english_error
    ∧ (analyze r v vm none fc fr).category
        = (merge_analysis fr (merge_kb_enrichments r v)
            (fallback_analysis fr (merge_kb_enrichments r v))).category
    ∧ (analyze r v vm none fc fr).severity
        = (merge_analysis fr (merge_kb_enrichments r v)
            (fallback_analysis fr (merge_kb_enrichments r v))).severity
    ∧ (analyze r v vm none fc fr).solutions
        = (merge_analysis fr (merge_kb_enrichments r v)
            (fallback_analysis fr (merge_kb_enrichments r v))).solutions := by
  rcases fc <;> by_cases hv : vm = [] <;> simp [analyze, hv]

/-! ## Claim C1 -/

/-- C1 counterexample: with both enrichments matched and the semantic side
contributing a new solution, the call extends the regex input's
`known_solutions` list in place (shallow `dict` copy + `setdefault(...).append`),
so `_merge_kb_enrichments` does not leave both of its inputs unchanged. -/
theorem merge_mutates_regex_input :
    merge_post_regex enrichMatchedR enrichMatchedV ≠ enrichMatchedR := by
  intro hcontra
  have h1 : (merge_post_regex enrichMatchedR enrichMatchedV).known_solutions
      = some ["Check firewall rules", "Increase timeout settings"] := rfl
  rw [hcontra] at h1
  exact absurd h1 (by decide)

/-- C1 (amended): the merge output is a deterministic function of its input
values with order-stable solution lists — in particular calling it again on
the mutated regex input returns the same output — and the semantic input is
never written; but the regex input is left unchanged only when not both
enrichments matched, or it carries no `known_solutions` key, or no semantic
solution is new. -/
theorem merge_determinism_amended (r v : Enrichment) :
    merge_kb_enrichments (merge_post_regex r v) v = merge_kb_enrichments r v
    ∧ (merge_post_regex r v = r ↔
        (¬(r.pattern_matched = true ∧ v.pattern_matched = true)
          ∨ r.known_solutions = none
          ∨ (v.known_solutions.getD []).filter
              (fun s => !(r.known_solutions.getD []).contains s) = [])) := by
  cases hr : r.pattern_matched with
  | false =>
    have hpost : merge_post_regex r v = r := by
      cases hv : v.pattern_matched <;> simp [merge_post_regex, hr, hv]
    rw [hpost]
    simp [hr]
  | true =>
    cases hv : v.pattern_matched with
    | false =>
      have hpost : merge_post_regex r v = r := by simp [merge_post_regex, hr, hv]
      rw [hpost]
      simp [hv]
    | true =>
      cases hks : r.known_solutions with
      | none =>
        have hpost : merge_post_regex r v = r := by simp [merge_post_regex, hr, hv, hks]
        rw [hpost]
        simp [hks]
      | some rs =>
        have hpost : merge_post_regex r v
            = { r with known_solutions := some (rs ++
                  (v.known_solutions.getD []).filter (fun s => !rs.contains s)) } := by
          simp [merge_post_regex, hr, hv, hks, merge_solutions_loop_eq]
        constructor
        · rw [hpost]
          simp only [merge_kb_enrichments, hr, hv, hks, merge_solutions_loop_eq, Option.getD_some,
            filter_not_contains_append_filter, List.append_nil]
          simp [merge_solutions_loop_eq, filter_not_contains_append_filter]
        · rw [hpost]
          constructor
          · intro h
            have hcong := congrArg Enrichment.known_solutions h
            rw [hks] at hcong
            have h3 : rs ++ (v.known_solutions.getD []).filter (fun s => !rs.contains s) = rs := by
              simpa using hcong
            right; right
            simpa using List.append_right_eq_self.mp h3
          · intro hdisj
            rcases hdisj with h | h | h
            · exact absurd ⟨rfl, rfl⟩ h
            · simp at h
            · simp only [Option.getD_some] at h
              rw [h, List.append_nil, ← hks]

/-! ## Claim C2 -/

/-- C2 counterexample: with an empty report category and an empty best-match
category (similarity 0.5, no root cause, no solutions), the code returns
confidence 0.70 while the claimed formula — which boosts whenever the two
categories are equal, with `"" = ""` — yields 0.80. -/
theorem fallback_confidence_claim_counterexample :
    (fallback_verification analysisC2 kbMatchesC2).confidence_score = 7/10
    ∧ claimed_fallback_confidence analysisC2 kbMatchesC2 = 4/5 := by
  constructor
  · rw [fallback_confidence_score_eq]
    norm_num [fallback_confidence, analysisC2, kbMatchesC2, entryC2]
  · norm_num [claimed_fallback_confidence, analysisC2, kbMatchesC2, entryC2, min_def]

/-- C2 (amended): the fallback confidence score follows the claimed formula
with the category boost additionally requiring a non-empty report category,
and the low-confidence manual-review flag is present exactly when the final
score is at most 0.5. -/
theorem fallback_verification_score_characterization
    (analysis : Analysis) (kb_matches : List KBMatch) :
    (fallback_verification analysis kb_matches).confidence_score
      = amended_fallback_confidence analysis kb_matches
    ∧ ("Low confidence — manual review recommended"
          ∈ (fallback_verification analysis kb_matches).flagged_issues
        ↔ (fallback_verification analysis kb_matches).confidence_score ≤ 1/2) := by
  have hscore := fallback_confidence_score_eq analysis kb_matches
  constructor
  · rw [hscore]
    rcases kb_matches with _ | ⟨m, rest⟩ <;>
      simp only [fallback_confidence, amended_fallback_confidence]
  · have hflag : (fallback_verification analysis kb_matches).flagged_issues
        = if fallback_confidence analysis kb_matches > 1/2 then []
          else ["Low confidence — manual review recommended"] := rfl
    rw [hflag, hscore]
    by_cases h : fallback_confidence analysis kb_matches > 1/2
    · simp only [if_pos h, List.not_mem_nil, false_iff, not_le]
      exact h
    · simp only [if_neg h, List.mem_singleton, true_iff]
      exact le_of_not_lt h

/-! ## Claim C3 -/

/-- C3: `match_error` returns `None` on an empty/absent message; it returns
`None` exactly when no entry produces at least one match; a returned entry is
a highest-scoring entry such that every earlier entry scores strictly less
(ties keep the earlier entry, a double match beats a single match regardless
of position); and entries with invalid regex patterns are skipped without
aborting the scan and without raising (scanning equals scanning the catalog
with them removed). -/
theorem match_error_spec (rc : String → String → Option Nat)
    (errors : List CatalogError) (msg : String) :
    (msg = "" → match_error rc errors msg = none)
    ∧ (match_error rc errors msg = none ↔ (msg = "" ∨ ∀ e ∈ errors, match_count rc msg e = 0))
    ∧ (∀ e, match_error rc errors msg = some e →
        1 ≤ match_count rc msg e
        ∧ ∃ l₁ l₂, errors = l₁ ++ e :: l₂
            ∧ (∀ x ∈ l₁, match_count rc msg x < match_count rc msg e)
            ∧ (∀ x ∈ l₂, match_count rc msg x ≤ match_count rc msg e))
    ∧ match_error rc errors msg
        = match_error rc (errors.filter (fun e => (rc e.pattern msg).isSome)) msg := by
  refine ⟨?_, ?_, ?_, ?_⟩
  · intro h
    simp [match_error, h]
  · by_cases hm : msg = ""
    · simp [match_error, hm]
    · rw [match_error, if_neg hm, match_error_loop_eq_none]
      simp [hm, Nat.le_zero]
  · intro e h
    by_cases hm : msg = ""
    · rw [match_error, if_pos hm] at h
      exact absurd h (by simp)
    · rw [match_error, if_neg hm] at h
      rcases match_error_loop_some rc msg errors none 0 e h with ⟨hb, _⟩ | ⟨l₁, l₂, heq, hlt, h₁, h₂⟩
      · exact absurd hb (by simp)
      · refine ⟨hlt, l₁, l₂, heq, ?_, h₂⟩
        intro x hx
        rcases h₁ x hx with hx' | hx'
        · omega
        · exact hx'
  · by_cases hm : msg = ""
    · simp [match_error, hm]
    · rw [match_error, if_neg hm, match_error, if_neg hm]
      exact match_error_loop_filter rc msg errors none 0

/-- Witness for C3: empty message gives `None`; on the concrete message the
scan skips the invalid entry and the double-match entry beats the
earlier single-match entry. -/
theorem match_error_spec_witness :
    match_error rcW catW "" = none
    ∧ (1 ≤ match_count rcW "timeout connection timeout" catTimeout
        ∧ ∃ l₁ l₂, catW = l₁ ++ catTimeout :: l₂
            ∧ (∀ x ∈ l₁, match_count rcW "timeout connection timeout" x
                < match_count rcW "timeout connection timeout" catTimeout)
            ∧ (∀ x ∈ l₂, match_count rcW "timeout connection timeout" x
                ≤ match_count rcW "timeout connection timeout" catTimeout)) :=
  ⟨(match_error_spec rcW catW "").1 rfl,
   (match_error_spec rcW catW "timeout connection timeout").2.2.1 catTimeout (by decide)⟩

/-! ## Claim C4 -/

/-- C4: for a non-empty message with at least one search result,
`get_enrichment` reports `pattern_matched=True` exactly when the best
similarity is at least 0.3 (the 0.3 boundary is inclusive); below the
threshold it reports no match together with the closest entry's title; and
an empty message (or an empty result list) reports no match. -/
theorem vector_get_enrichment_threshold (search : String → Nat → List KBMatch) (msg : String) :
    vector_get_enrichment search "" = { pattern_matched := false }
    ∧ (∀ best rest, msg ≠ "" → search msg 3 = best :: rest →
        ((vector_get_enrichment search msg).pattern_matched = true ↔ 3/10 ≤ best.similarity))
    ∧ (∀ best rest, msg ≠ "" → search msg 3 = best :: rest → best.similarity < 3/10 →
        (vector_get_enrichment search msg).pattern_matched = false
        ∧ (vector_get_enrichment search msg).closest_match = some best.entry.title)
    ∧ (msg ≠ "" → search msg 3 = [] →
        (vector_get_enrichment search msg).pattern_matched = false) := by
  refine ⟨by simp [vector_get_enrichment], ?_, ?_, ?_⟩
  · intro best rest hm hs
    rw [vector_get_enrichment, if_neg hm]
    rw [hs]
    by_cases hlt : best.similarity < 3/10
    · simp [if_pos hlt]
      linarith
    · simp [if_neg hlt]
      linarith [le_of_not_lt hlt]
  · intro best rest hm hs hlt
    rw [vector_get_enrichment, if_neg hm]
    rw [hs]
    simp [if_pos hlt]
  · intro hm hs
    rw [vector_get_enrichment, if_neg hm]
    rw [hs]

/-- Witness for C4 at the 0.30/0.29 boundary: similarity 0.30 is accepted,
0.29 is rejected and surfaces the closest title, and the empty message
never matches. -/
theorem vector_get_enrichment_threshold_witness :
    (vector_get_enrichment searchHi "db timeout").pattern_matched = true
    ∧ ((vector_get_enrichment searchLo "db timeout").pattern_matched = false
        ∧ (vector_get_enrichment searchLo "db timeout").closest_match
            = some "Connection Timeout Error")
    ∧ vector_get_enrichment searchLo "" = { pattern_matched := false } :=
  ⟨((vector_get_enrichment_threshold searchHi "db timeout").2.1
      { entry := entryW, similarity := 3/10, distance := 7/10 } [] (by decide) rfl).mpr
      (le_refl (3/10 : ℚ)),
   (vector_get_enrichment_threshold searchLo "db timeout").2.2.1
      { entry := entryW, similarity := 29/100, distance := 71/100 } [] (by decide) rfl
      (by norm_num),
   (vector_get_enrichment_threshold searchLo "anything").1⟩

/-! ## Claim C5 -/

/-- C5: when both enrichments matched, the merge equals the regex enrichment
except that the solutions become the regex solutions followed by the
not-already-present semantic solutions in semantic order, the prevention and
similar-errors lists are overwritten with the semantic versions, and the
match confidence is the semantic one. -/
theorem merge_both_matched_characterization (r v : Enrichment)
    (rs vs pv : List String) (sv : List SimilarError) (cv : ℚ)
    (hr : r.pattern_matched = true) (hv : v.pattern_matched = true)
    (hrs : r.known_solutions = some rs) (hvs : v.known_solutions = some vs)
    (hpv : v.prevention = some pv) (hsv : v.similar_errors = some sv)
    (hcv : v.match_confidence = some cv) :
    merge_kb_enrichments r v
      = { r with
          known_solutions := some (rs ++ vs.filter (fun s => !rs.contains s)),
          prevention := some pv,
          similar_errors := some sv,
          match_confidence := some cv } := by
  simp [merge_kb_enrichments, hr, hv, hrs, hvs, hpv, hsv, hcv, merge_solutions_loop_eq]

/-- Witness for C5 on concrete enrichments. -/
theorem merge_both_matched_characterization_witness :
    merge_kb_enrichments enrichMatchedR enrichMatchedV
      = { enrichMatchedR with
          known_solutions := some ["Check firewall rules", "Increase timeout settings"],
          prevention := some ["Set appropriate timeout values"],
          similar_errors := some [],
          match_confidence := some (4/5) } := by
  rw [merge_both_matched_characterization enrichMatchedR enrichMatchedV
    ["Check firewall rules"] ["Increase timeout settings"] ["Set appropriate timeout values"]
    [] (4/5) rfl rfl rfl rfl rfl rfl rfl]
  rfl

/-! ## Claim C6 -/

/-- C6: when exactly one of the two enrichments has `pattern_matched=True`,
`_merge_kb_enrichments` returns that enrichment verbatim, and when neither
has, it returns the regex enrichment unchanged. -/
theorem merge_single_source_identity (r v : Enrichment) :
    (v.pattern_matched = true → r.pattern_matched = false → merge_kb_enrichments r v = v)
    ∧ (r.pattern_matched = true → v.pattern_matched = false → merge_kb_enrichments r v = r)
    ∧ (r.pattern_matched = false → v.pattern_matched = false → merge_kb_enrichments r v = r) := by
  refine ⟨?_, ?_, ?_⟩ <;> intro h1 h2 <;> simp [merge_kb_enrichments, h1, h2]

/-- Witness for C6 on concrete enrichments. -/
theorem merge_single_source_identity_witness :
    merge_kb_enrichments enrichNone enrichMatchedV = enrichMatchedV
    ∧ merge_kb_enrichments enrichMatchedR enrichNone = enrichMatchedR
    ∧ merge_kb_enrichments enrichNone enrichNone = enrichNone :=
  ⟨(merge_single_source_identity enrichNone enrichMatchedV).1 rfl rfl,
   (merge_single_source_identity enrichMatchedR enrichNone).2.1 rfl rfl,
   (merge_single_source_identity enrichNone enrichNone).2.2 rfl rfl⟩

/-! ## Claim C7 -/

/-- C7: when the AI synthesis call raises or its response fails to parse,
`analyze` does not propagate the error and still returns a report with
non-empty `plain_english_error`, `category` and `severity` and at least one
solution.  The hypotheses record the catalog invariants of the knowledge
bases feeding the merged enrichment: categories and severities of matched
entries are non-empty enum strings, and a matched entry supplies at least
one known solution or a runbook with steps. -/
theorem analyze_fallback_completeness (regex_kb vector_kb : Enrichment) (vm : List KBMatch)
    (fc : FactCheckOutcome) (fr : FailureRecord)
    (hcat : (merge_kb_enrichments regex_kb vector_kb).category ≠ some "")
    (hsev : (merge_kb_enrichments regex_kb vector_kb).severity ≠ some "")
    (hsol : (merge_kb_enrichments regex_kb vector_kb).pattern_matched = true →
      ((merge_kb_enrichments regex_kb vector_kb).known_solutions.getD [] ≠ []
        ∨ ∃ rb, (merge_kb_enrichments regex_kb vector_kb).runbook = some rb
            ∧ rb.steps.getD [] ≠ [])) :
    (analyze regex_kb vector_kb vm none fc fr).plain_english_error ≠ ""
    ∧ (analyze regex_kb vector_kb vm none fc fr).category ≠ ""
    ∧ (analyze regex_kb vector_kb vm none fc fr).severity ≠ ""
    ∧ (analyze regex_kb vector_kb vm none fc fr).solutions ≠ [] := by
  obtain ⟨h1, h2, h3, h4⟩ := analyze_ai_failed_core_fields regex_kb vector_kb vm fc fr
  rw [h1, h2, h3, h4]
  set merged := merge_kb_enrichments regex_kb vector_kb with hmergedDef
  refine ⟨?_, ?_, ?_, ?_⟩
  · cases hpm : merged.pattern_matched <;>
      simp only [merge_analysis, fallback_analysis, hpm, Bool.false_eq_true, if_false,
        if_true, Option.getD_some] <;>
      (repeat' apply string_append_ne_empty_left) <;> decide
  · cases hpm : merged.pattern_matched <;>
      simp only [merge_analysis, fallback_analysis, hpm, Bool.false_eq_true, if_false,
        if_true, Option.getD_some]
    · decide
    · cases hc : merged.category with
      | none => simp
      | some c =>
        simp only [hc, Option.getD_some]
        intro hceq
        exact hcat (by rw [hc, hceq])
  · cases hpm : merged.pattern_matched <;>
      simp only [merge_analysis, fallback_analysis, hpm, Bool.false_eq_true, if_false,
        if_true, Option.getD_some]
    · decide
    · cases hs : merged.severity with
      | none => simp
      | some c =>
        simp only [hs, Option.getD_some]
        intro hseq
        exact hsev (by rw [hs, hseq])
  · cases hpm : merged.pattern_matched <;>
      simp only [merge_analysis, fallback_analysis, hpm, Bool.false_eq_true, if_false,
        if_true, Option.getD_some]
    · simp
    · rcases hsol hpm with hks | ⟨rb, hrb, hsteps⟩
      · have hbase : (((merged.known_solutions.getD []).take 5).enum.map fun sol =>
            ({ title := sol.2, steps := [],
               estimated_time := merged.estimated_fix_time.getD "15-30 minutes",
               likelihood := if sol.1 = 0 then "high" else "medium" } : Solution)) ≠ [] := by
          simp [List.map_eq_nil_iff, List.enum_eq_nil, List.take_eq_nil_iff, hks]
        cases hrb' : merged.runbook with
        | none => simpa [hrb'] using hbase
        | some rb =>
          by_cases hst : rb.steps.getD [] ≠ []
          · simp [hrb', hst]
          · simpa [hrb', hst] using hbase
      · simp [hrb, hsteps]

/-- Witness for C7: a failed AI call over an unmatched regex enrichment and a
matched semantic enrichment still yields a complete report. -/
theorem analyze_fallback_completeness_witness :
    (analyze enrichNone enrichMatchedV [] none FactCheckOutcome.absent
        frShort).plain_english_error ≠ ""
    ∧ (analyze enrichNone enrichMatchedV [] none FactCheckOutcome.absent
        frShort).category ≠ ""
    ∧ (analyze enrichNone enrichMatchedV [] none FactCheckOutcome.absent
        frShort).severity ≠ ""
    ∧ (analyze enrichNone enrichMatchedV [] none FactCheckOutcome.absent
        frShort).solutions ≠ [] :=
  analyze_fallback_completeness enrichNone enrichMatchedV [] FactCheckOutcome.absent frShort
    (by decide) (by decide) (fun _ => Or.inl (by decide))

/-! ## Claim C8 -/

/-- C8: in the fallback fact-check, for a fixed report and a match list that
differs only in the best match's similarity, the confidence score is
monotonically non-decreasing in that similarity; and for every input the
confidence score lies within `[0, 0.95]`. -/
theorem fallback_confidence_monotone_and_bounded
    (a : Analysis) (e : KBEntry) (d : ℚ) (rest : List KBMatch) (s s' : ℚ) (hs : s ≤ s')
    (b : Analysis) (ms : List KBMatch) :
    (fallback_verification a ({ entry := e, similarity := s, distance := d } :: rest)).confidence_score
      ≤ (fallback_verification a ({ entry := e, similarity := s', distance := d } :: rest)).confidence_score
    ∧ 0 ≤ (fallback_verification b ms).confidence_score
    ∧ (fallback_verification b ms).confidence_score ≤ 19/20 := by
  rw [fallback_confidence_score_eq, fallback_confidence_score_eq, fallback_confidence_score_eq]
  refine ⟨?_, ?_, ?_⟩
  · simp only [fallback_confidence]
    split_ifs <;> first | linarith | norm_num [min_def]
  · have := (fallback_confidence_bounds b ms).1
    linarith
  · exact (fallback_confidence_bounds b ms).2

/-- Witness for C8 at best-match similarities 0 ≤ 1 on a concrete report. -/
theorem fallback_confidence_monotone_and_bounded_witness :
    (fallback_verification analysisW
        ({ entry := entryW, similarity := 0, distance := 1 } :: [])).confidence_score
      ≤ (fallback_verification analysisW
        ({ entry := entryW, similarity := 1, distance := 1 } :: [])).confidence_score
    ∧ 0 ≤ (fallback_verification analysisW []).confidence_score
    ∧ (fallback_verification analysisW []).confidence_score ≤ 19/20 :=
  fallback_confidence_monotone_and_bounded analysisW entryW 1 [] 0 1 zero_le_one analysisW []

/-! ## Claim C9 -/

/-- C9 counterexample: on a 2001-character message the string placed into the
prompt context has 2003 characters — `truncate_string` appends a
three-character ellipsis after the 2000-character cut, so the included
string is neither capped at 2000 characters nor a prefix of the original. -/
theorem build_prompt_truncation_counterexample :
    (build_prompt_context frLong enrichNone).primary_error_message.length = 2003
    ∧ ¬((build_prompt_context frLong enrichNone).primary_error_message.length ≤ 2000) := by
  have hlen : longMsg.length = 2001 := by rw [longMsg, String.length_mk, List.length_replicate]
  have hne : longMsg ≠ "" := by simp [longMsg]
  have hdata : longMsg.data.length = 2001 := by
    rw [show longMsg.data = List.replicate 2001 'a' from rfl, List.length_replicate]
  have hproj := build_prompt_context_message frLong enrichNone
  have hmsg : frLong.primary_error_message = longMsg := rfl
  have h : (build_prompt_context frLong enrichNone).primary_error_message
      = longMsg.take 2000 ++ "..." := by
    rw [hproj, hmsg, truncate_string, if_neg hne, if_neg (by rw [hlen]; omega)]
  have hfull : (build_prompt_context frLong enrichNone).primary_error_message.length = 2003 := by
    rw [h, String.length_append, String.take_eq, String.length_mk, List.length_take, hdata,
      show ("..." : String).length = 3 from rfl]
    omega
  exact ⟨hfull, by rw [hfull]; omega⟩

/-- C9 (amended): the message placed into the prompt context equals the
original when that is at most 2000 characters long; otherwise it is the
first 2000 characters followed by the ellipsis `"..."`, for a total length
of exactly 2003; in every case the included string has at most 2003
characters. -/
theorem build_prompt_truncation_amended (fr : FailureRecord) (kb : Enrichment) :
    (fr.primary_error_message.length ≤ 2000 →
      (build_prompt_context fr kb).primary_error_message = fr.primary_error_message)
    ∧ (2000 < fr.primary_error_message.length →
      (build_prompt_context fr kb).primary_error_message
          = fr.primary_error_message.take 2000 ++ "..."
        ∧ (build_prompt_context fr kb).primary_error_message.length = 2003)
    ∧ (build_prompt_context fr kb).primary_error_message.length ≤ 2003 := by
  have hproj := build_prompt_context_message fr kb
  have hd : fr.primary_error_message.data.length = fr.primary_error_message.length := rfl
  refine ⟨?_, ?_, ?_⟩
  · intro hle
    rw [hproj, truncate_string]
    by_cases he : fr.primary_error_message = ""
    · simp [he]
    · rw [if_neg he, if_pos hle]
  · intro hgt
    have he : fr.primary_error_message ≠ "" := by
      intro h0
      rw [h0] at hgt
      simp at hgt
    have htr : truncate_string fr.primary_error_message 2000
        = fr.primary_error_message.take 2000 ++ "..." := by
      rw [truncate_string, if_neg he, if_neg (by omega)]
    have hlen : (fr.primary_error_message.take 2000 ++ "...").length = 2003 := by
      rw [String.length_append, String.take_eq, String.length_mk, List.length_take, hd,
        show ("..." : String).length = 3 from rfl]
      omega
    exact ⟨by rw [hproj, htr], by rw [hproj, htr, hlen]⟩
  · rw [hproj, truncate_string]
    by_cases he : fr.primary_error_message = ""
    · simp [he]
    · rw [if_neg he]
      by_cases hle : fr.primary_error_message.length ≤ 2000
      · rw [if_pos hle]
        omega
      · rw [if_neg hle, String.length_append, String.take_eq, String.length_mk,
          List.length_take, hd, show ("..." : String).length = 3 from rfl]
        omega

/-- Witness for C9 (amended) on a 4-character and a 2001-character message. -/
theorem build_prompt_truncation_amended_witness :
    (build_prompt_context frShort enrichNone).primary_error_message = "boom"
    ∧ ((build_prompt_context frLong enrichNone).primary_error_message
          = longMsg.take 2000 ++ "..."
        ∧ (build_prompt_context frLong enrichNone).primary_error_message.length = 2003) :=
  ⟨(build_prompt_truncation_amended frShort enrichNone).1 (by decide),
   (build_prompt_truncation_amended frLong enrichNone).2.1
      (by rw [show frLong.primary_error_message = longMsg from rfl, longMsg, String.length_mk,
            List.length_replicate]; omega)⟩

/-! ## Claim C10 -/

/-- C10: every `_fallback_verification` result has `severity_correct = True`,
`root_cause_accurate` true exactly when the computed confidence exceeds 0.6,
`solutions_applicable` true exactly when it exceeds 0.5, and
`confidence_score` equal to the computed confidence rounded to two decimals. -/
theorem fallback_verification_field_semantics (analysis : Analysis) (kb_matches : List KBMatch) :
    (fallback_verification analysis kb_matches).severity_correct = true
    ∧ ((fallback_verification analysis kb_matches).root_cause_accurate = true
        ↔ fallback_confidence analysis kb_matches > 3/5)
    ∧ ((fallback_verification analysis kb_matches).solutions_applicable = true
        ↔ fallback_confidence analysis kb_matches > 1/2)
    ∧ (fallback_verification analysis kb_matches).confidence_score
        = roundTo2 (fallback_confidence analysis kb_matches) := by
  refine ⟨rfl, ?_, ?_, rfl⟩ <;> simp [fallback_verification]
